import Mathlib

/-!
Verification of the YouTube-Thumbnails front-end session logic.

The development shallowly embeds the client-side state machine and
prompt-assembly logic of the repository: the thumbnail history with its
undo/redo cursor (`ThumbnailGenerator.tsx`), the top-level application
session (`App.tsx`), the generate/edit/reference handlers, and the
request-construction and response-decoding functions of the generation
client (`geminiService.ts`).  External model calls are represented by an
`Except`-valued parameter standing for the awaited outcome of the call.
-/

set_option maxRecDepth 400000

namespace YTO

/-! ## Thumbnail history (ThumbnailGenerator.tsx)

The history is a JavaScript array of data-URL strings together with the
integer cursor `currentIndex`, which starts at `-1` and is therefore
modelled as an `Int`. -/

/-- Embeds `updateHistory` of `ThumbnailGenerator.tsx`: the slice
`thumbnailHistory.slice(0, currentIndex + 1)` (a JS slice clamps a
negative or oversized end index), push of the new thumbnail, and the
cursor moved to the new last index. -/
def updateHistory (thumbnailHistory : List String) (currentIndex : Int)
    (newThumbnail : String) : List String × Int :=
  let newHistory := thumbnailHistory.take (currentIndex + 1).toNat ++ [newThumbnail]
  (newHistory, (newHistory.length : Int) - 1)

/-- Embeds `canUndo`: `currentIndex > 0`. -/
def canUndo (currentIndex : Int) : Bool := 0 < currentIndex

/-- Embeds `canRedo`: `currentIndex < thumbnailHistory.length - 1`. -/
def canRedo (thumbnailHistory : List String) (currentIndex : Int) : Bool :=
  currentIndex < (thumbnailHistory.length : Int) - 1

/-- Embeds `handleUndo`: decrement the cursor when `canUndo` holds.  (The
history itself is not consulted by `canUndo`; the parameter mirrors the
component state the handler closes over.) -/
def handleUndo (_thumbnailHistory : List String) (currentIndex : Int) : Int :=
  if canUndo currentIndex then currentIndex - 1 else currentIndex

/-- Embeds `handleRedo`: increment the cursor when `canRedo` holds. -/
def handleRedo (thumbnailHistory : List String) (currentIndex : Int) : Int :=
  if canRedo thumbnailHistory currentIndex then currentIndex + 1 else currentIndex

/-- C1: appending to the history truncates it to the prefix ending at the
cursor, appends the new artifact, and leaves the cursor at the new last
index (which holds the new artifact). -/
theorem C1_updateHistory_truncates_and_appends
    (hist : List String) (idx : Int) (new : String)
    (h0 : 0 ≤ idx) (_h1 : idx < (hist.length : Int)) :
    (updateHistory hist idx new).1 = hist.take (idx.toNat + 1) ++ [new] ∧
    (updateHistory hist idx new).2 = ((updateHistory hist idx new).1.length : Int) - 1 ∧
    (updateHistory hist idx new).1.getLast? = some new := by
  refine ⟨?_, rfl, ?_⟩
  · show hist.take (idx + 1).toNat ++ [new] = hist.take (idx.toNat + 1) ++ [new]
    have h : (idx + 1).toNat = idx.toNat + 1 := by omega
    rw [h]
  · simp [updateHistory]

/-- Witness for C1 at the spec scenario: history `[A, B, C]` with the
cursor at index 0; appending `D` yields `[A, D]` with the cursor at `D`. -/
theorem C1_witness :
    ((updateHistory ["A", "B", "C"] 0 "D").1 =
        (["A", "B", "C"] : List String).take (Int.toNat 0 + 1) ++ ["D"] ∧
      (updateHistory ["A", "B", "C"] 0 "D").2 =
        (((updateHistory ["A", "B", "C"] 0 "D").1.length : Int)) - 1 ∧
      (updateHistory ["A", "B", "C"] 0 "D").1.getLast? = some "D") ∧
    updateHistory ["A", "B", "C"] 0 "D" = (["A", "D"], 1) := by
  refine ⟨C1_updateHistory_truncates_and_appends ["A", "B", "C"] 0 "D"
    (by decide) (by decide), by decide⟩

/-- C2: with the cursor at a valid index, undo and redo move the cursor by
at most one position, keep it inside `[0, length - 1]`, undo at index 0 is
a no-op, and redo at the last index is a no-op. -/
theorem C2_undo_redo_bounds (hist : List String) (idx : Int)
    (h0 : 0 ≤ idx) (h1 : idx < (hist.length : Int)) :
    (handleUndo hist idx = idx ∨ handleUndo hist idx = idx - 1) ∧
    0 ≤ handleUndo hist idx ∧ handleUndo hist idx < (hist.length : Int) ∧
    (handleRedo hist idx = idx ∨ handleRedo hist idx = idx + 1) ∧
    0 ≤ handleRedo hist idx ∧ handleRedo hist idx < (hist.length : Int) ∧
    (idx = 0 → handleUndo hist idx = idx) ∧
    (idx = (hist.length : Int) - 1 → handleRedo hist idx = idx) := by
  simp only [handleUndo, handleRedo, canUndo, canRedo]
  by_cases hu : (0 : Int) < idx <;> by_cases hr : idx < (hist.length : Int) - 1 <;>
    simp [hu, hr] <;> omega

/-- Witness for C2 at a concrete history of length 2 with the cursor at
index 0: undo stays at 0, redo moves to 1, both inside bounds. -/
theorem C2_witness :
    (handleUndo ["A", "B"] 0 = 0 ∨ handleUndo ["A", "B"] 0 = 0 - 1) ∧
    0 ≤ handleUndo ["A", "B"] 0 ∧ handleUndo ["A", "B"] 0 < ((["A", "B"] : List String).length : Int) ∧
    (handleRedo ["A", "B"] 0 = 0 ∨ handleRedo ["A", "B"] 0 = 0 + 1) ∧
    0 ≤ handleRedo ["A", "B"] 0 ∧ handleRedo ["A", "B"] 0 < ((["A", "B"] : List String).length : Int) ∧
    ((0 : Int) = 0 → handleUndo ["A", "B"] 0 = 0) ∧
    ((0 : Int) = ((["A", "B"] : List String).length : Int) - 1 → handleRedo ["A", "B"] 0 = 0) :=
  C2_undo_redo_bounds ["A", "B"] 0 (by decide) (by decide)

/-! ## Top-level application session (App.tsx, types.ts) -/

/-- Embeds the JavaScript `String.prototype.trim()`: leading and trailing
whitespace removed. -/
def jsTrim (s : String) : String :=
  ⟨((s.data.dropWhile Char.isWhitespace).reverse.dropWhile Char.isWhitespace).reverse⟩

/-- Embeds the `AppState` enumeration of `types.ts`. -/
inductive AppState
  | TITLE_INPUT
  | GENERATING_TITLES
  | TITLES_DISPLAYED
  | THUMBNAIL_INPUT
deriving DecidableEq

/-- Embeds the `Language` union type of `types.ts`. -/
inductive Language
  | en
  | ar
deriving DecidableEq

/-- Embeds the `App` component state: the fields held in the `useState`
hooks of `App.tsx`. -/
structure AppSession where
  appState : AppState
  topic : String
  generatedTitles : List String
  selectedTitle : Option String
  language : Language
  error : Option String
deriving DecidableEq

/-- Embeds the initial values of the `useState` hooks of `App.tsx`. -/
def initialSession : AppSession :=
  { appState := .TITLE_INPUT
    topic := ""
    generatedTitles := []
    selectedTitle := none
    language := .en
    error := none }

/-- Embeds the synchronous prefix of `handleGenerateTitles`: the state
reached after `setTopic`, `setLanguage`, `setAppState(GENERATING_TITLES)`
and `setError(null)`, while the `generateTitles` call is awaited. -/
def handleGenerateTitlesPending (s : AppSession) (newTopic : String)
    (lang : Language) : AppSession :=
  { s with
    topic := newTopic
    language := lang
    appState := .GENERATING_TITLES
    error := none }

/-- Embeds `handleGenerateTitles` of `App.tsx`, with the awaited outcome
of the external `generateTitles` call passed in as an `Except` value: on
success the titles are stored and the state becomes `TITLES_DISPLAYED`;
on failure the error message is set and the state returns to
`TITLE_INPUT` (the stored titles are not touched on this path). -/
def handleGenerateTitles (s : AppSession) (newTopic : String) (lang : Language)
    (result : Except String (List String)) : AppSession :=
  let s1 := handleGenerateTitlesPending s newTopic lang
  match result with
  | .ok titles => { s1 with generatedTitles := titles, appState := .TITLES_DISPLAYED }
  | .error _ =>
    { s1 with
      error := some "Failed to generate titles. Please try again."
      appState := .TITLE_INPUT }

/-- Embeds `handleTitleSelect` of `App.tsx`. -/
def handleTitleSelect (s : AppSession) (title : String) : AppSession :=
  { s with selectedTitle := some title, appState := .THUMBNAIL_INPUT }

/-- Embeds `handleStartOver` of `App.tsx`: it resets `appState`, `topic`,
`generatedTitles`, `selectedTitle` and `error`; the `language` hook is not
written by this handler. -/
def handleStartOver (s : AppSession) : AppSession :=
  { s with
    appState := .TITLE_INPUT
    topic := ""
    generatedTitles := []
    selectedTitle := none
    error := none }

/-- C3 counterexample: when a title generation that follows an earlier
successful one fails, the stored titles list is left as it was — it is
not empty, contradicting the claim that the titles list is empty in the
failure case. -/
theorem C3_counterexample :
    (handleGenerateTitles
        { initialSession with
            appState := .TITLES_DISPLAYED
            generatedTitles := ["Old title"] }
        "new topic" .en (.error "network down")).appState = .TITLE_INPUT ∧
    (handleGenerateTitles
        { initialSession with
            appState := .TITLES_DISPLAYED
            generatedTitles := ["Old title"] }
        "new topic" .en (.error "network down")).error ≠ none ∧
    (handleGenerateTitles
        { initialSession with
            appState := .TITLES_DISPLAYED
            generatedTitles := ["Old title"] }
        "new topic" .en (.error "network down")).generatedTitles ≠ [] := by
  refine ⟨rfl, ?_, ?_⟩ <;> decide

/-- C3 (amended): for every non-empty topic and language, submitting
title generation first moves the session to `GENERATING_TITLES`; on
success it moves to `TITLES_DISPLAYED` with the returned titles stored
and no error; on failure it returns to `TITLE_INPUT` with a non-null
error message and the stored titles list left unchanged (so it is empty
only when it already was, e.g. on the first submission). -/
theorem C3_generate_titles_transitions (s : AppSession) (topic : String)
    (lang : Language) (_hne : jsTrim topic ≠ "") :
    (handleGenerateTitlesPending s topic lang).appState = .GENERATING_TITLES ∧
    (∀ titles,
      (handleGenerateTitles s topic lang (.ok titles)).appState = .TITLES_DISPLAYED ∧
      (handleGenerateTitles s topic lang (.ok titles)).generatedTitles = titles ∧
      (handleGenerateTitles s topic lang (.ok titles)).error = none) ∧
    (∀ e,
      (handleGenerateTitles s topic lang (.error e)).appState = .TITLE_INPUT ∧
      (handleGenerateTitles s topic lang (.error e)).error ≠ none ∧
      (handleGenerateTitles s topic lang (.error e)).generatedTitles =
        s.generatedTitles) := by
  refine ⟨rfl, fun titles => ⟨rfl, rfl, rfl⟩, fun e => ⟨rfl, ?_, rfl⟩⟩
  simp [handleGenerateTitles, handleGenerateTitlesPending]

/-- Witness for the amended C3 at a concrete non-empty topic. -/
theorem C3_witness :
    (handleGenerateTitlesPending initialSession "space" .en).appState =
        .GENERATING_TITLES ∧
    (∀ titles,
      (handleGenerateTitles initialSession "space" .en (.ok titles)).appState =
          .TITLES_DISPLAYED ∧
      (handleGenerateTitles initialSession "space" .en (.ok titles)).generatedTitles =
          titles ∧
      (handleGenerateTitles initialSession "space" .en (.ok titles)).error = none) ∧
    (∀ e,
      (handleGenerateTitles initialSession "space" .en (.error e)).appState =
          .TITLE_INPUT ∧
      (handleGenerateTitles initialSession "space" .en (.error e)).error ≠ none ∧
      (handleGenerateTitles initialSession "space" .en (.error e)).generatedTitles =
        initialSession.generatedTitles) :=
  C3_generate_titles_transitions initialSession "space" .en (by decide)

/-- A session in which the user has switched the language to Arabic and
reached the titles screen. -/
def arabicSession : AppSession :=
  { appState := .TITLES_DISPLAYED
    topic := "t"
    generatedTitles := ["a"]
    selectedTitle := some "a"
    language := .ar
    error := none }

/-- C6 counterexample: starting over from a session whose language was
switched to Arabic leaves the language as Arabic, so the language field
does not return to its initial value. -/
theorem C6_counterexample :
    (handleStartOver arabicSession).language ≠ initialSession.language := by
  decide

/-- C6 (amended): starting over from any session state resets the state
to `TITLE_INPUT` and clears the topic, the generated titles, the selected
title and the error message to their initial values, while the language
selection is preserved rather than reset. -/
theorem C6_start_over_resets (s : AppSession) :
    handleStartOver s = { initialSession with language := s.language } :=
  rfl

/-! ## Thumbnail workspace (ThumbnailGenerator.tsx)

The `useState` hooks of the `ThumbnailGenerator` component.  Uploaded
images are represented by their base64 `preview` strings (the paired
`File` handles carry no information the handlers below consult beyond
existence, which the preview string witnesses). -/

/-- Embeds the `ThumbnailGenerator` component state. -/
structure WorkspaceState where
  numSubjects : Nat
  mainSubject1 : Option String
  mainSubject2 : Option String
  backgroundImages : List String
  layoutPreset : String
  referencePreviews : List String
  analyzedStyle : Option String
  styleStrength : Nat
  thumbnailHistory : List String
  currentIndex : Int
  editInstruction : String
  suggestions : List String
  error : Option String
deriving DecidableEq

/-- Embeds the initial values of the `ThumbnailGenerator` hooks. -/
def initialWorkspace : WorkspaceState :=
  { numSubjects := 1
    mainSubject1 := none
    mainSubject2 := none
    backgroundImages := []
    layoutPreset := "Default"
    referencePreviews := []
    analyzedStyle := none
    styleStrength := 80
    thumbnailHistory := []
    currentIndex := -1
    editInstruction := ""
    suggestions := []
    error := none }

/-- Embeds `currentThumbnail`: `thumbnailHistory[currentIndex] || null`
(an out-of-range index yields `undefined`, and an empty string is falsy,
so both map to `null`). -/
def currentThumbnail (st : WorkspaceState) : Option String :=
  match (if 0 ≤ st.currentIndex then st.thumbnailHistory.get? st.currentIndex.toNat
         else none) with
  | some s => if s = "" then none else some s
  | none => none

/-- Embeds `handleUndo` at the component-state level: only the cursor is
written, when `canUndo` holds. -/
def workspaceUndo (st : WorkspaceState) : WorkspaceState :=
  if canUndo st.currentIndex then { st with currentIndex := st.currentIndex - 1 }
  else st

/-- Embeds `handleRedo` at the component-state level: only the cursor is
written, when `canRedo` holds. -/
def workspaceRedo (st : WorkspaceState) : WorkspaceState :=
  if canRedo st.thumbnailHistory st.currentIndex then
    { st with currentIndex := st.currentIndex + 1 }
  else st

/-- Embeds the `'reference'` branch of `handleFileChange`: with no files
selected the handler returns at once; otherwise the reference list is
extended and truncated to 3 entries and `analyzedStyle` is set to null. -/
def handleAddReferences (st : WorkspaceState) (newPreviews : List String) :
    WorkspaceState :=
  if newPreviews = [] then st
  else
    { st with
      referencePreviews := (st.referencePreviews ++ newPreviews).take 3
      analyzedStyle := none }

/-- Embeds `handleRemoveReference`: the entry at the given index is
filtered out of the reference list, and `analyzedStyle`, if set, is set
to null. -/
def handleRemoveReference (st : WorkspaceState) (indexToRemove : Nat) :
    WorkspaceState :=
  { st with
    referencePreviews :=
      ((st.referencePreviews.enum.filter (fun p => p.1 ≠ indexToRemove)).map
        (fun p => p.2))
    analyzedStyle := if st.analyzedStyle.isSome then none else st.analyzedStyle }

/-- Embeds `handleGenerateClick`, with the awaited outcomes of the two
possible external calls passed in: `analyzeResult` stands for the
`analyzeStyleReferences` call made when references exist but no analyzed
style is cached, and `genResult` for the `generateThumbnail` call.  The
guard rejects the action before either outcome is consulted when a
required subject image is missing. -/
def handleGenerateClick (st : WorkspaceState)
    (analyzeResult : Except String String)
    (genResult : Except String String) : WorkspaceState :=
  if st.mainSubject1 = none ∨ (st.numSubjects = 2 ∧ st.mainSubject2 = none) then
    { st with error := some "Please upload all main subject photos." }
  else
    let st1 := { st with error := none, suggestions := [] }
    if st1.referencePreviews.length > 0 ∧ st1.analyzedStyle = none then
      match analyzeResult with
      | .error _ => { st1 with error := some "Failed to generate thumbnail." }
      | .ok style =>
        let st2 := { st1 with analyzedStyle := some style }
        match genResult with
        | .ok newThumbnail =>
          let hi := updateHistory st2.thumbnailHistory st2.currentIndex newThumbnail
          { st2 with thumbnailHistory := hi.1, currentIndex := hi.2 }
        | .error _ => { st2 with error := some "Failed to generate thumbnail." }
    else
      match genResult with
      | .ok newThumbnail =>
        let hi := updateHistory st1.thumbnailHistory st1.currentIndex newThumbnail
        { st1 with thumbnailHistory := hi.1, currentIndex := hi.2 }
      | .error _ => { st1 with error := some "Failed to generate thumbnail." }

/-- Embeds `handleApplyEdit`, with the awaited outcome of the external
`editThumbnail` call passed in: without an active thumbnail or with a
whitespace-only instruction the handler returns at once; on success the
history is updated and the typed instruction cleared; on failure the
error message is set. -/
def handleApplyEdit (st : WorkspaceState) (instruction : String)
    (editResult : Except String String) : WorkspaceState :=
  match currentThumbnail st with
  | none => st
  | some _ =>
    if jsTrim instruction = "" then st
    else
      let st1 := { st with error := none }
      match editResult with
      | .ok newThumbnail =>
        let hi := updateHistory st1.thumbnailHistory st1.currentIndex newThumbnail
        { st1 with
          thumbnailHistory := hi.1
          currentIndex := hi.2
          editInstruction := "" }
      | .error _ => { st1 with error := some "Failed to apply the edit." }

/-- C4: when the first main-subject image is missing, or two-subject mode
is active and the second is missing, the generate action only sets the
validation error message: the resulting state is the same for every
outcome of the external calls (so no external call can influence it), and
the history, cursor and every other field are unchanged. -/
theorem C4_generate_rejects_missing_subjects (st : WorkspaceState)
    (analyzeResult genResult : Except String String)
    (h : st.mainSubject1 = none ∨ (st.numSubjects = 2 ∧ st.mainSubject2 = none)) :
    handleGenerateClick st analyzeResult genResult =
      { st with error := some "Please upload all main subject photos." } := by
  simp [handleGenerateClick, h]

/-- Witness for C4: two-subject mode with only the first subject image
present is rejected with the validation message and an unchanged history. -/
theorem C4_witness :
    handleGenerateClick
        { initialWorkspace with
            numSubjects := 2
            mainSubject1 := some "data:image/png;base64,AAAA" }
        (.ok "style") (.ok "data:image/png;base64,NEW") =
      { { initialWorkspace with
            numSubjects := 2
            mainSubject1 := some "data:image/png;base64,AAAA" } with
          error := some "Please upload all main subject photos." } :=
  C4_generate_rejects_missing_subjects _ _ _ (Or.inr ⟨rfl, rfl⟩)

/-- A workspace with a generated thumbnail, a cached suggestion list and
all inputs needed for a further generation or edit. -/
def busyWorkspace : WorkspaceState :=
  { initialWorkspace with
    mainSubject1 := some "data:image/png;base64,AAAA"
    thumbnailHistory := ["data:image/png;base64,T0"]
    currentIndex := 0
    suggestions := ["Add a glowing outline around the text"] }

/-- C5 counterexample: a generate attempt that passes input validation
but whose external call fails still clears the suggestion list (no new
thumbnail was produced), and a successful edit leaves the suggestion list
untouched — so the list is not cleared exactly at successful generations
and edits. -/
theorem C5_counterexample :
    (handleGenerateClick busyWorkspace (.error "x") (.error "boom")).suggestions = [] ∧
    (handleGenerateClick busyWorkspace (.error "x") (.error "boom")).thumbnailHistory =
      busyWorkspace.thumbnailHistory ∧
    (handleApplyEdit busyWorkspace "make the text yellow"
        (.ok "data:image/png;base64,T1")).thumbnailHistory ≠
      busyWorkspace.thumbnailHistory ∧
    (handleApplyEdit busyWorkspace "make the text yellow"
        (.ok "data:image/png;base64,T1")).suggestions =
      busyWorkspace.suggestions ∧
    busyWorkspace.suggestions ≠ [] := by
  refine ⟨rfl, rfl, ?_, rfl, ?_⟩ <;> decide

/-- C5 (amended): the suggestion list is cleared exactly when a generate
action passes input validation — whether or not the generation then
succeeds — and it is never changed by an edit action (successful or not)
nor by an undo or redo navigation. -/
theorem C5_suggestions_clearing (st : WorkspaceState)
    (analyzeResult genResult : Except String String)
    (instruction : String) (editResult : Except String String)
    (h : ¬ (st.mainSubject1 = none ∨ (st.numSubjects = 2 ∧ st.mainSubject2 = none))) :
    (handleGenerateClick st analyzeResult genResult).suggestions = [] ∧
    (handleApplyEdit st instruction editResult).suggestions = st.suggestions ∧
    (workspaceUndo st).suggestions = st.suggestions ∧
    (workspaceRedo st).suggestions = st.suggestions := by
  refine ⟨?_, ?_, ?_, ?_⟩
  · by_cases hc : st.referencePreviews.length > 0 ∧ st.analyzedStyle = none <;>
      cases analyzeResult <;> cases genResult <;>
      simp [handleGenerateClick, h, hc]
  · cases hct : currentThumbnail st with
    | none => simp [handleApplyEdit, hct]
    | some t =>
      by_cases ht : jsTrim instruction = "" <;> cases editResult <;>
        simp [handleApplyEdit, hct, ht]
  · unfold workspaceUndo
    split <;> rfl
  · unfold workspaceRedo
    split <;> rfl

/-- Witness for the amended C5 at the concrete workspace: a successful
generation clears the suggestions, and edits, undo and redo leave them
unchanged. -/
theorem C5_witness :
    (handleGenerateClick busyWorkspace (.ok "sty")
        (.ok "data:image/png;base64,T1")).suggestions = [] ∧
    (handleApplyEdit busyWorkspace "brighter colors"
        (.ok "data:image/png;base64,T2")).suggestions = busyWorkspace.suggestions ∧
    (workspaceUndo busyWorkspace).suggestions = busyWorkspace.suggestions ∧
    (workspaceRedo busyWorkspace).suggestions = busyWorkspace.suggestions :=
  C5_suggestions_clearing busyWorkspace (.ok "sty") (.ok "data:image/png;base64,T1")
    "brighter colors" (.ok "data:image/png;base64,T2") (by decide)

/-- C9: removing a style-reference image always leaves the analyzed style
description cleared; adding reference images afterwards does not restore
it, and adding reference images by itself also invalidates any cached
analysis. -/
theorem C9_reference_removal_clears_style (st : WorkspaceState) (i : Nat)
    (ps : List String) (hps : ps ≠ []) :
    (handleRemoveReference st i).analyzedStyle = none ∧
    (handleAddReferences (handleRemoveReference st i) ps).analyzedStyle = none ∧
    (handleAddReferences st ps).analyzedStyle = none := by
  have hrm : (handleRemoveReference st i).analyzedStyle = none := by
    cases hs : st.analyzedStyle <;> simp [handleRemoveReference, hs]
  exact ⟨hrm, by simp [handleAddReferences, hps], by simp [handleAddReferences, hps]⟩

/-- Witness for C9: analyzed style cached for two references; removing
one clears it, and re-adding a reference keeps it cleared. -/
theorem C9_witness :
    (handleRemoveReference
        { initialWorkspace with
            referencePreviews := ["r1", "r2"]
            analyzedStyle := some "bold red captions" } 0).analyzedStyle = none ∧
    (handleAddReferences
        (handleRemoveReference
          { initialWorkspace with
              referencePreviews := ["r1", "r2"]
              analyzedStyle := some "bold red captions" } 0)
        ["r3"]).analyzedStyle = none ∧
    (handleAddReferences
        { initialWorkspace with
            referencePreviews := ["r1", "r2"]
            analyzedStyle := some "bold red captions" } ["r3"]).analyzedStyle = none :=
  C9_reference_removal_clears_style _ 0 ["r3"] (by decide)

/-! ## String machinery

Substring containment over `String` (used to state that an assembled
instruction includes a given piece of wording), and models of the
JavaScript string primitives the generation client uses to split a data
URL into its media type and payload. -/

/-- Boolean test that the first list is a prefix of the second. -/
def isPrefB : List Char → List Char → Bool
  | [], _ => true
  | _ :: _, [] => false
  | p :: ps, c :: cs => p == c && isPrefB ps cs

/-- Boolean test that `pat` occurs contiguously inside the second list. -/
def containsB (pat : List Char) : List Char → Bool
  | [] => pat.isEmpty
  | c :: cs => isPrefB pat (c :: cs) || containsB pat cs

/-- `pat` occurs contiguously inside the string `s`. -/
def strContains (s pat : String) : Bool := containsB pat.data s.data

/-- Concatenation of a list of strings, in order. -/
def concatAll : List String → String
  | [] => ""
  | s :: rest => s ++ concatAll rest

theorem isPrefB_append_self (p r : List Char) : isPrefB p (p ++ r) = true := by
  induction p with
  | nil => rfl
  | cons a as ih => simp [isPrefB, ih]

theorem isPrefB_append_of (p l r : List Char) (h : isPrefB p l = true) :
    isPrefB p (l ++ r) = true := by
  induction p generalizing l with
  | nil => rfl
  | cons a as ih =>
    cases l with
    | nil => simp [isPrefB] at h
    | cons b bs =>
      simp only [isPrefB, Bool.and_eq_true] at h
      simp only [List.cons_append, isPrefB, Bool.and_eq_true]
      exact ⟨h.1, ih bs h.2⟩

theorem containsB_nil_pat (l : List Char) : containsB [] l = true := by
  cases l <;> simp [containsB, isPrefB]

theorem containsB_append_left (p l r : List Char) (h : containsB p l = true) :
    containsB p (l ++ r) = true := by
  induction l with
  | nil =>
    have hp : p = [] := by simpa [containsB] using h
    subst hp
    exact containsB_nil_pat r
  | cons c cs ih =>
    simp only [containsB, Bool.or_eq_true] at h
    simp only [List.cons_append, containsB, Bool.or_eq_true]
    rcases h with h | h
    · exact Or.inl (isPrefB_append_of p (c :: cs) r h)
    · exact Or.inr (ih h)

theorem containsB_append_right (p l r : List Char) (h : containsB p r = true) :
    containsB p (l ++ r) = true := by
  induction l with
  | nil => simpa using h
  | cons c cs ih =>
    simp only [List.cons_append, containsB, Bool.or_eq_true]
    exact Or.inr ih

theorem containsB_self (p r : List Char) : containsB p (p ++ r) = true := by
  cases p with
  | nil => exact containsB_nil_pat r
  | cons c cs =>
    simp only [List.cons_append, containsB, Bool.or_eq_true]
    exact Or.inl (isPrefB_append_self (c :: cs) r)

theorem containsB_refl (p : List Char) : containsB p p = true := by
  simpa using containsB_self p []

theorem data_append (a b : String) : (a ++ b).data = a.data ++ b.data := by
  cases a
  cases b
  rfl

theorem strContains_append_left (l r pat : String) (h : strContains l pat = true) :
    strContains (l ++ r) pat = true := by
  unfold strContains at h ⊢
  rw [data_append]
  exact containsB_append_left _ _ _ h

theorem strContains_append_right (l r pat : String) (h : strContains r pat = true) :
    strContains (l ++ r) pat = true := by
  unfold strContains at h ⊢
  rw [data_append]
  exact containsB_append_right _ _ _ h

theorem strContains_refl (s : String) : strContains s s = true :=
  containsB_refl s.data

theorem strContains_mid (a b c : String) : strContains (a ++ b ++ c) b = true := by
  unfold strContains
  rw [data_append, data_append]
  rw [List.append_assoc]
  exact containsB_append_right _ _ _ (containsB_self b.data c.data)

theorem strContains_concatAll_of_seg (l : List String) (seg pat : String)
    (hmem : seg ∈ l) (h : strContains seg pat = true) :
    strContains (concatAll l) pat = true := by
  induction l with
  | nil => cases hmem
  | cons s rest ih =>
    rcases List.mem_cons.mp hmem with h1 | h2
    · exact strContains_append_left s (concatAll rest) pat (h1 ▸ h)
    · exact strContains_append_right s (concatAll rest) pat (ih h2)

/-- Embeds the JavaScript `indexOf` for a single character: the index of
its first occurrence, or `-1` when absent. -/
def indexOfChar : List Char → Char → Int
  | [], _ => -1
  | x :: xs, c =>
    if x = c then 0
    else
      let r := indexOfChar xs c
      if r = -1 then -1 else r + 1

/-- Embeds the JavaScript `substring(a, b)`: both arguments are clamped
to `[0, length]` and swapped when out of order. -/
def jsSubstring (s : String) (a b : Int) : String :=
  let n : Int := s.data.length
  let a1 := min (max a 0) n
  let b1 := min (max b 0) n
  ⟨(s.data.drop (min a1 b1).toNat).take ((max a1 b1).toNat - (min a1 b1).toNat)⟩

/-- Embeds the media-type extraction of `geminiService.ts`: the
substring of a data URL between the first colon (exclusive) and the
first semicolon. -/
def mimeTypeOf (s : String) : String :=
  jsSubstring s (indexOfChar s.data ':' + 1) (indexOfChar s.data ';')

/-- Embeds the payload extraction of `geminiService.ts`: the substring
of a data URL after the first comma. -/
def pureBase64Of (s : String) : String :=
  jsSubstring s (indexOfChar s.data ',' + 1) (s.data.length : Int)

/-! ## Thumbnail request assembly (geminiService.ts, generateThumbnail) -/

/-- Embeds the JavaScript truthiness test applied to an optional string
argument: `null` and the empty string are falsy. -/
def truthy : Option String → Bool
  | some s => s != ""
  | none => false

/-- A part of a structured request to the generation endpoint: the
instruction text or one inline image (payload and media type). -/
inductive RequestPart
  | text (s : String)
  | inlineData (data mimeType : String)
deriving DecidableEq

/-- The inline-image request part built from a data URL, as pushed by
`generateThumbnail`. -/
def imagePartOf (b64 : String) : RequestPart :=
  .inlineData (pureBase64Of b64) (mimeTypeOf b64)

/-- Embeds the layout-dependent sentence of the `generateThumbnail`
prompt: the opposing-sides wording for the versus preset with two
subjects, the friendly side-by-side wording for collaboration with two
subjects, and the prominent-placement wording otherwise. -/
def layoutSentence (layout : String) (numSubjects : Nat) : String :=
  if layout == "Versus/Comparison" && numSubjects == 2 then
    "Create a composition with the two subjects on opposing sides. "
  else if layout == "Collaboration" && numSubjects == 2 then
    "Place the two subjects side-by-side in a friendly composition. "
  else
    "Place the main subject(s) prominently. "

/-- Embeds the language-dependent text-style paragraph of the prompt. -/
def textLanguageSentence (language : Language) : String :=
  if language = .ar then
    "**Text Language**: Any text on the thumbnail must be in Arabic. Use a bold, modern, and highly readable Arabic font (like Cairo or Tajawal) suitable for headlines. Render all Arabic text correctly in RTL (right-to-left) format.\n\n"
  else
    "**Text Language**: Any text on the thumbnail must be in English. Use a bold, sans-serif font that\x27s easy to read.\n\n"

/-- Embeds the subject-count paragraph of the prompt. -/
def mainSubjectsSentence (numSubjects : Nat) : String :=
  "**Main Subjects**: You are provided with " ++ toString numSubjects ++
    " image(s) of the main subject(s). You MUST use these images in the thumbnail. **CRITICAL RULE: DO NOT alter the facial features, expression, or likeness of the people in these photos.** You may perform background removal, cropping, and place them within the composition, but the person themselves must remain unchanged.\n\n"

/-- Embeds the line added alongside the first subject image part. -/
def subject1Line (ms1 : Option String) : String :=
  if truthy ms1 then "- Image 1 is the main subject (or subject 1).\n" else ""

/-- Embeds the line added alongside the second subject image part, which
requires both a truthy second image and `numSubjects === 2`. -/
def subject2Line (ms2 : Option String) (numSubjects : Nat) : String :=
  if truthy ms2 && numSubjects == 2 then "- Image 2 is subject 2.\n" else ""

/-- Embeds the background-images paragraph of the prompt. -/
def backgroundSentence (backgroundImages : List String) : String :=
  if backgroundImages.length > 0 then
    "**Provided Background/Context Images**: You are also provided with context images. Integrate them artfully into the background design. They can be faded, blurred, or part of a collage to add depth.\n\n"
  else ""

/-- Embeds the optional design-style paragraph of the prompt. -/
def designStyleSentence (styleDescription : Option String) (styleStrength : Nat) :
    String :=
  match styleDescription with
  | some sd =>
    if sd != "" then
      "**Design Style**: Adhere to the following design style with approximately " ++
        toString styleStrength ++
        "% strength. This style should influence the colors, text, effects, and overall mood: \n" ++
        sd ++ "\n\n"
    else ""
  | none => ""

/-- The successive `prompt +=` pieces of `generateThumbnail`, in source
order. -/
def generateThumbnailPromptSegments (title : String) (language : Language)
    (numSubjects : Nat) (ms1 ms2 : Option String) (backgroundImages : List String)
    (layout : String) (styleDescription : Option String) (styleStrength : Nat) :
    List String :=
  [ "**CRITICAL INSTRUCTION**: You are a professional graphic designer creating a complete YouTube thumbnail. The final output image MUST be exactly 1280x720 pixels with a 16:9 aspect ratio.\n\n",
    "The video title is \"" ++ title ++ "\".\n\n",
    textLanguageSentence language,
    mainSubjectsSentence numSubjects,
    subject1Line ms1,
    subject2Line ms2 numSubjects,
    "\n**Layout**: Arrange the subject(s) according to the \"" ++ layout ++ "\" layout. ",
    layoutSentence layout numSubjects,
    "The title text must be placed strategically and be highly visible.\n\n",
    backgroundSentence backgroundImages,
    designStyleSentence styleDescription styleStrength,
    "Remember, generate a polished, professional, complete thumbnail, strictly adhering to the 1280x720 resolution and the rule about not altering the main subjects\x27 faces." ]

/-- Embeds the full instruction text assembled by `generateThumbnail`. -/
def generateThumbnailPrompt (title : String) (language : Language)
    (numSubjects : Nat) (ms1 ms2 : Option String) (backgroundImages : List String)
    (layout : String) (styleDescription : Option String) (styleStrength : Nat) :
    String :=
  concatAll (generateThumbnailPromptSegments title language numSubjects ms1 ms2
    backgroundImages layout styleDescription styleStrength)

/-- Embeds the `parts` array sent by `generateThumbnail`: the assembled
instruction (unshifted to the front), then the first subject image when
truthy, the second subject image when truthy and `numSubjects === 2`, and
every background image. -/
def generateThumbnailParts (title : String) (language : Language)
    (numSubjects : Nat) (ms1 ms2 : Option String) (backgroundImages : List String)
    (layout : String) (styleDescription : Option String) (styleStrength : Nat) :
    List RequestPart :=
  .text (generateThumbnailPrompt title language numSubjects ms1 ms2
      backgroundImages layout styleDescription styleStrength) ::
    ((match ms1 with
      | some s => if s != "" then [imagePartOf s] else []
      | none => []) ++
     (match ms2 with
      | some s => if s != "" && numSubjects == 2 then [imagePartOf s] else []
      | none => []) ++
     backgroundImages.map imagePartOf)

/-! ## Generation-client response decoding (geminiService.ts) -/

/-- A part of an endpoint response: free text or one inline image
payload. -/
inductive ResponsePart
  | text (s : String)
  | inlineData (data : String)
deriving DecidableEq

/-- A response is the list of candidates, each carrying its list of
content parts. -/
def GenResponse := List (List ResponsePart)

/-- Embeds `response?.candidates?.[0]?.content?.parts?.[0]` followed by
the `imagePart?.inlineData` check: the payload of the first part of the
first candidate, when that part is an inline image. -/
def extractedImage (resp : List (List ResponsePart)) : Option String :=
  match resp with
  | [] => none
  | parts :: _ =>
    match parts with
    | ResponsePart.inlineData d :: _ => some d
    | _ => none

/-- Embeds the tail of `generateThumbnail`: wrap the extracted payload as
a PNG data URL, or throw the no-output error. -/
def generateThumbnailDecode (resp : List (List ResponsePart)) :
    Except String String :=
  match extractedImage resp with
  | some d => .ok ("data:image/png;base64," ++ d)
  | none =>
    .error "No thumbnail was generated by the model. The response may have been blocked due to safety settings."

/-- Embeds the tail of `editThumbnail`: wrap the extracted payload as a
PNG data URL, or throw the no-output error. -/
def editThumbnailDecode (resp : List (List ResponsePart)) :
    Except String String :=
  match extractedImage resp with
  | some d => .ok ("data:image/png;base64," ++ d)
  | none =>
    .error "No edited thumbnail was generated by the model. The response may have been blocked due to safety settings."

/-- Whether any part of any candidate of the response carries an image
payload. -/
def hasImagePayload (resp : List (List ResponsePart)) : Bool :=
  resp.any (fun parts =>
    parts.any (fun p =>
      match p with
      | ResponsePart.inlineData _ => true
      | ResponsePart.text _ => false))

/-- Follows the wording of the specification: the first image payload
contained anywhere in the response, in candidate and part order. -/
def specFirstImagePayload (resp : List (List ResponsePart)) : Option String :=
  ((resp.map (fun parts =>
      parts.filterMap (fun p =>
        match p with
        | ResponsePart.inlineData d => some d
        | ResponsePart.text _ => none))).flatten).head?

/-- C7 counterexample: a response whose first part is text and whose
second part is an image payload does contain an image payload — its first
image payload is the second part — yet both thumbnail decoding and edit
decoding fail with the no-output error instead of returning it. -/
theorem C7_counterexample :
    specFirstImagePayload [[ResponsePart.text "refusal notice",
        ResponsePart.inlineData "IMGBYTES"]] = some "IMGBYTES" ∧
    generateThumbnailDecode [[ResponsePart.text "refusal notice",
        ResponsePart.inlineData "IMGBYTES"]] =
      .error "No thumbnail was generated by the model. The response may have been blocked due to safety settings." ∧
    editThumbnailDecode [[ResponsePart.text "refusal notice",
        ResponsePart.inlineData "IMGBYTES"]] =
      .error "No edited thumbnail was generated by the model. The response may have been blocked due to safety settings." :=
  ⟨rfl, rfl, rfl⟩

/-- C7 (amended): the generation client inspects only the first part of
the first candidate: when that part is an image payload it is returned,
wrapped as a PNG data URL; otherwise the call fails with the no-output
error — in particular it fails whenever the response contains no image
payload at all — and for both thumbnail generation and editing, with no
retry (the decode of the single awaited response is final). -/
theorem C7_first_part_decoding (resp : List (List ResponsePart)) :
    (hasImagePayload resp = false →
      generateThumbnailDecode resp =
        .error "No thumbnail was generated by the model. The response may have been blocked due to safety settings." ∧
      editThumbnailDecode resp =
        .error "No edited thumbnail was generated by the model. The response may have been blocked due to safety settings.") ∧
    (∀ d ps rest, resp = (ResponsePart.inlineData d :: ps) :: rest →
      generateThumbnailDecode resp = .ok ("data:image/png;base64," ++ d) ∧
      editThumbnailDecode resp = .ok ("data:image/png;base64," ++ d)) := by
  constructor
  · intro h
    have hext : extractedImage resp = none := by
      match resp with
      | [] => rfl
      | [] :: rest => rfl
      | (ResponsePart.text s :: ps) :: rest => rfl
      | (ResponsePart.inlineData d :: ps) :: rest =>
        simp [hasImagePayload] at h
    rw [generateThumbnailDecode, editThumbnailDecode, hext]
    exact ⟨rfl, rfl⟩
  · intro d ps rest hr
    subst hr
    exact ⟨rfl, rfl⟩

/-- Witness for the amended C7: a text-only response yields the
no-output errors, and a response whose first part is an image yields
that image as a data URL. -/
theorem C7_witness :
    (generateThumbnailDecode [[ResponsePart.text "nope"]] =
        .error "No thumbnail was generated by the model. The response may have been blocked due to safety settings." ∧
      editThumbnailDecode [[ResponsePart.text "nope"]] =
        .error "No edited thumbnail was generated by the model. The response may have been blocked due to safety settings.") ∧
    (generateThumbnailDecode [[ResponsePart.inlineData "OK1"]] =
        .ok ("data:image/png;base64," ++ "OK1") ∧
      editThumbnailDecode [[ResponsePart.inlineData "OK1"]] =
        .ok ("data:image/png;base64," ++ "OK1")) :=
  ⟨(C7_first_part_decoding [[ResponsePart.text "nope"]]).1 (by decide),
   (C7_first_part_decoding [[ResponsePart.inlineData "OK1"]]).2 "OK1" [] [] rfl⟩

/-! ## Layout wording and subject gating (C8, C10) -/

/-- The prompt assembled with the versus preset while one-subject mode is
active (the preset selection survives switching back to one subject in
the component, so this combination is reachable). -/
def versusOneSubjectPrompt : String :=
  generateThumbnailPrompt "T" .en 1 (some "data:image/png;base64,AAA") none []
    "Versus/Comparison" none 80

/-- C8 counterexample: a request built with the versus preset but
one-subject mode active does not receive the opposing-side wording — it
receives the prominent-placement wording instead. -/
theorem C8_counterexample :
    strContains versusOneSubjectPrompt
        "Create a composition with the two subjects on opposing sides." = false ∧
    strContains versusOneSubjectPrompt
        "Place the main subject(s) prominently. " = true := by
  constructor <;> decide

/-- C8 (amended): in two-subject mode the versus preset yields the
opposing-side wording and the collaboration preset the friendly
side-by-side wording; any other preset, or any preset while one-subject
mode is active, yields the prominent-placement wording.  The title text
is embedded verbatim in every assembled instruction, the first subject
image payload is included whenever supplied, and the second subject image
payload whenever supplied in two-subject mode. -/
theorem C8_layout_wording (title : String) (lang : Language) (numSubjects : Nat)
    (ms1 ms2 : Option String) (bg : List String) (layout : String)
    (sty : Option String) (strength : Nat) :
    (layout = "Versus/Comparison" → numSubjects = 2 →
      strContains (generateThumbnailPrompt title lang numSubjects ms1 ms2 bg layout
          sty strength)
        "Create a composition with the two subjects on opposing sides. " = true) ∧
    (layout = "Collaboration" → numSubjects = 2 →
      strContains (generateThumbnailPrompt title lang numSubjects ms1 ms2 bg layout
          sty strength)
        "Place the two subjects side-by-side in a friendly composition. " = true) ∧
    (¬(layout = "Versus/Comparison" ∧ numSubjects = 2) →
      ¬(layout = "Collaboration" ∧ numSubjects = 2) →
      strContains (generateThumbnailPrompt title lang numSubjects ms1 ms2 bg layout
          sty strength)
        "Place the main subject(s) prominently. " = true) ∧
    (strContains (generateThumbnailPrompt title lang numSubjects ms1 ms2 bg layout
        sty strength) title = true) ∧
    (∀ s, ms1 = some s → s ≠ "" →
      imagePartOf s ∈ generateThumbnailParts title lang numSubjects ms1 ms2 bg
        layout sty strength) ∧
    (∀ s, ms2 = some s → s ≠ "" → numSubjects = 2 →
      imagePartOf s ∈ generateThumbnailParts title lang numSubjects ms1 ms2 bg
        layout sty strength) := by
  refine ⟨?_, ?_, ?_, ?_, ?_, ?_⟩
  · intro hv h2
    subst hv
    subst h2
    refine strContains_concatAll_of_seg _ (layoutSentence "Versus/Comparison" 2) _
      (by simp [generateThumbnailPromptSegments]) ?_
    have hs : layoutSentence "Versus/Comparison" 2 =
        "Create a composition with the two subjects on opposing sides. " := rfl
    rw [hs]
    exact strContains_refl _
  · intro hv h2
    subst hv
    subst h2
    refine strContains_concatAll_of_seg _ (layoutSentence "Collaboration" 2) _
      (by simp [generateThumbnailPromptSegments]) ?_
    have hs : layoutSentence "Collaboration" 2 =
        "Place the two subjects side-by-side in a friendly composition. " := rfl
    rw [hs]
    exact strContains_refl _
  · intro hn1 hn2
    have c1 : ¬(((layout == "Versus/Comparison") && (numSubjects == 2)) = true) := by
      simp only [Bool.and_eq_true, beq_iff_eq]
      exact hn1
    have c2 : ¬(((layout == "Collaboration") && (numSubjects == 2)) = true) := by
      simp only [Bool.and_eq_true, beq_iff_eq]
      exact hn2
    have hs : layoutSentence layout numSubjects =
        "Place the main subject(s) prominently. " := by
      unfold layoutSentence
      rw [if_neg c1, if_neg c2]
    refine strContains_concatAll_of_seg _ (layoutSentence layout numSubjects) _
      (by simp [generateThumbnailPromptSegments]) ?_
    rw [hs]
    exact strContains_refl _
  · refine strContains_concatAll_of_seg _
      ("The video title is \"" ++ title ++ "\".\n\n") _
      (by simp [generateThumbnailPromptSegments]) ?_
    exact strContains_mid "The video title is \"" title "\".\n\n"
  · intro s hms hs
    subst hms
    have hb : (s != "") = true := bne_iff_ne.mpr hs
    simp [generateThumbnailParts, hb]
  · intro s hms hs h2
    subst hms
    subst h2
    have hb : (s != "") = true := bne_iff_ne.mpr hs
    simp [generateThumbnailParts, hb]

/-- Witness for the amended C8 at the spec scenario: versus preset, two
subjects, both images present — the opposing-side wording appears, the
title is embedded verbatim, and both subject image payloads are among the
request parts. -/
theorem C8_witness :
    strContains (generateThumbnailPrompt "Epic Battle" .en 2
        (some "data:image/png;base64,AAA") (some "data:image/jpeg;base64,BBB") []
        "Versus/Comparison" none 80)
      "Create a composition with the two subjects on opposing sides. " = true ∧
    strContains (generateThumbnailPrompt "Epic Battle" .en 2
        (some "data:image/png;base64,AAA") (some "data:image/jpeg;base64,BBB") []
        "Versus/Comparison" none 80) "Epic Battle" = true ∧
    imagePartOf "data:image/png;base64,AAA" ∈ generateThumbnailParts "Epic Battle"
      .en 2 (some "data:image/png;base64,AAA") (some "data:image/jpeg;base64,BBB")
      [] "Versus/Comparison" none 80 ∧
    imagePartOf "data:image/jpeg;base64,BBB" ∈ generateThumbnailParts "Epic Battle"
      .en 2 (some "data:image/png;base64,AAA") (some "data:image/jpeg;base64,BBB")
      [] "Versus/Comparison" none 80 :=
  ⟨(C8_layout_wording "Epic Battle" .en 2 (some "data:image/png;base64,AAA")
      (some "data:image/jpeg;base64,BBB") [] "Versus/Comparison" none 80).1 rfl rfl,
   (C8_layout_wording "Epic Battle" .en 2 (some "data:image/png;base64,AAA")
      (some "data:image/jpeg;base64,BBB") [] "Versus/Comparison" none 80).2.2.2.1,
   (C8_layout_wording "Epic Battle" .en 2 (some "data:image/png;base64,AAA")
      (some "data:image/jpeg;base64,BBB") [] "Versus/Comparison" none 80).2.2.2.2.1
     "data:image/png;base64,AAA" rfl (by decide),
   (C8_layout_wording "Epic Battle" .en 2 (some "data:image/png;base64,AAA")
      (some "data:image/jpeg;base64,BBB") [] "Versus/Comparison" none 80).2.2.2.2.2
     "data:image/jpeg;base64,BBB" rfl (by decide) rfl⟩

/-- C10: when two-subject mode is not active, a stored second subject
image has no effect at all on the assembled request — the parts are the
same as with no second image — and in one-subject mode the instruction
counts exactly one subject image. -/
theorem C10_second_subject_gating (title : String) (lang : Language)
    (numSubjects : Nat) (ms1 : Option String) (d2 : String) (bg : List String)
    (layout : String) (sty : Option String) (strength : Nat)
    (h : numSubjects ≠ 2) :
    generateThumbnailParts title lang numSubjects ms1 (some d2) bg layout sty
        strength =
      generateThumbnailParts title lang numSubjects ms1 none bg layout sty
        strength ∧
    (numSubjects = 1 →
      strContains (generateThumbnailPrompt title lang numSubjects ms1 (some d2) bg
          layout sty strength) "You are provided with 1 image(s)" = true) := by
  have hb : (numSubjects == 2) = false := by
    simpa using h
  constructor
  · simp [generateThumbnailParts, generateThumbnailPrompt,
      generateThumbnailPromptSegments, subject2Line, hb, truthy]
  · intro h1
    subst h1
    refine strContains_concatAll_of_seg _ (mainSubjectsSentence 1) _
      (by simp [generateThumbnailPromptSegments]) ?_
    decide

/-- Witness for C10: one-subject mode with a stored second image yields
the same request parts as with no second image, and the instruction
counts one subject image. -/
theorem C10_witness :
    (generateThumbnailParts "T" .en 1 (some "data:image/png;base64,A")
        (some "data:image/jpeg;base64,B") [] "Default" none 80 =
      generateThumbnailParts "T" .en 1 (some "data:image/png;base64,A") none []
        "Default" none 80) ∧
    ((1 : Nat) = 1 →
      strContains (generateThumbnailPrompt "T" .en 1 (some "data:image/png;base64,A")
          (some "data:image/jpeg;base64,B") [] "Default" none 80)
        "You are provided with 1 image(s)" = true) :=
  C10_second_subject_gating "T" .en 1 (some "data:image/png;base64,A")
    "data:image/jpeg;base64,B" [] "Default" none 80 (by decide)

end YTO
